import Mathlib

/-!
Verification of the bokchoy payment-gateway integration layer.

The development shallowly embeds the Rust sources of the repository:
  src/bokchoy/src/utils.rs        (request signing, webhook verification)
  src/bokchoy/src/psp/wxpay_jsapi.rs  (provider adapter, AES-256-GCM resource decryption)
  src/bokchoy/src/lib.rs          (payment orchestrator state machine)

Bytes are lists of naturals below 256.  External crates are embedded by their
documented algorithms: rsa (PKCS#1 v1.5 with SHA-256, which is deterministic),
aes_gcm (AES-256-GCM), base64 (standard alphabet, canonical padding), sha2.
All definitions are executable so that theorems can be settled by evaluation
on the concrete test vectors pinned in the repository.
-/

set_option maxRecDepth 40000

/-! ## Bytes, UTF-8, numeric conversions -/

/-- UTF-8 encoding of a single Unicode code point. -/
def utf8Char (c : Nat) : List Nat :=
  if c < 128 then [c]
  else if c < 2048 then [192 + c / 64, 128 + c % 64]
  else if c < 65536 then [224 + c / 4096, 128 + c / 64 % 64, 128 + c % 64]
  else [240 + c / 262144, 128 + c / 4096 % 64, 128 + c / 64 % 64, 128 + c % 64]

/-- UTF-8 encoding of a string, as the byte sequence Rust exposes via as_bytes. -/
def utf8 (s : String) : List Nat :=
  s.data.foldr (fun c acc => utf8Char c.toNat ++ acc) []

/-- Big-endian conversion of a natural number to exactly k bytes (RFC 8017 I2OSP). -/
def i2osp : Nat → Nat → List Nat
  | 0, _ => []
  | k + 1, m => i2osp k (m / 256) ++ [m % 256]

/-- Big-endian interpretation of a byte sequence as a natural number (RFC 8017 OS2IP). -/
def os2ip (bs : List Nat) : Nat :=
  bs.foldl (fun a b => a * 256 + b) 0

/-! ## Base64 (standard alphabet with canonical padding, as the base64 crate) -/

def b64alphabet : String :=
  "ABCDEFGHIJKLMNOPQRSTUVWXYZabcdefghijklmnopqrstuvwxyz0123456789+/"

def b64chr (v : Nat) : Char :=
  b64alphabet.data.getD v 'A'

def b64encodeGroups : List Nat → List Char
  | [] => []
  | [a] => [b64chr (a / 4), b64chr (a % 4 * 16), '=', '=']
  | [a, b] => [b64chr (a / 4), b64chr (a % 4 * 16 + b / 16), b64chr (b % 16 * 4), '=']
  | a :: b :: c :: rest =>
      b64chr (a / 4) :: b64chr (a % 4 * 16 + b / 16) :: b64chr (b % 16 * 4 + c / 64) ::
        b64chr (c % 64) :: b64encodeGroups rest

/-- Base64 encoding with the standard alphabet and padding. -/
def b64encode (bs : List Nat) : String :=
  String.mk (b64encodeGroups bs)

/-- Value of a base64 alphabet character, none for anything else. -/
def b64val (c : Char) : Option Nat :=
  let n := c.toNat
  if 65 ≤ n ∧ n ≤ 90 then some (n - 65)
  else if 97 ≤ n ∧ n ≤ 122 then some (n - 71)
  else if 48 ≤ n ∧ n ≤ 57 then some (n + 4)
  else if n = 43 then some 62
  else if n = 47 then some 63
  else none

def b64decodeGroups : List Char → List Nat → Option (List Nat)
  | [], acc => some acc.reverse
  | c1 :: c2 :: c3 :: c4 :: rest, acc =>
      if c3 = '=' ∧ c4 = '=' ∧ rest = [] then
        match b64val c1, b64val c2 with
        | some v1, some v2 =>
            if v2 % 16 = 0 then some (((v1 * 4 + v2 / 16) :: acc).reverse) else none
        | _, _ => none
      else if c4 = '=' ∧ rest = [] then
        match b64val c1, b64val c2, b64val c3 with
        | some v1, some v2, some v3 =>
            if v3 % 4 = 0 then
              some (((v2 % 16 * 16 + v3 / 4) :: (v1 * 4 + v2 / 16) :: acc).reverse)
            else none
        | _, _, _ => none
      else
        match b64val c1, b64val c2, b64val c3, b64val c4 with
        | some v1, some v2, some v3, some v4 =>
            b64decodeGroups rest
              ((v3 % 4 * 64 + v4) :: (v2 % 16 * 16 + v3 / 4) :: (v1 * 4 + v2 / 16) :: acc)
        | _, _, _, _ => none
  | _, _ => none

/-- Base64 decoding, strict about padding, as BASE64_STANDARD.decode. -/
def b64decode (s : String) : Option (List Nat) :=
  b64decodeGroups s.data []

/-! ## SHA-256 (the sha2 crate) -/

def w32 (x : Nat) : Nat := x % 4294967296

def rotr32 (n x : Nat) : Nat := x / 2 ^ n + x % 2 ^ n * 2 ^ (32 - n)

def smallSigma0 (x : Nat) : Nat := rotr32 7 x ^^^ rotr32 18 x ^^^ x / 8
def smallSigma1 (x : Nat) : Nat := rotr32 17 x ^^^ rotr32 19 x ^^^ x / 1024
def bigSigma0 (x : Nat) : Nat := rotr32 2 x ^^^ rotr32 13 x ^^^ rotr32 22 x
def bigSigma1 (x : Nat) : Nat := rotr32 6 x ^^^ rotr32 11 x ^^^ rotr32 25 x

def shaK : List Nat :=
  [1116352408, 1899447441, 3049323471, 3921009573, 961987163, 1508970993,
   2453635748, 2870763221, 3624381080, 310598401, 607225278, 1426881987,
   1925078388, 2162078206, 2614888103, 3248222580, 3835390401, 4022224774,
   264347078, 604807628, 770255983, 1249150122, 1555081692, 1996064986,
   2554220882, 2821834349, 2952996808, 3210313671, 3336571891, 3584528711,
   113926993, 338241895, 666307205, 773529912, 1294757372, 1396182291,
   1695183700, 1986661051, 2177026350, 2456956037, 2730485921, 2820302411,
   3259730800, 3345764771, 3516065817, 3600352804, 4094571909, 275423344,
   430227734, 506948616, 659060556, 883997877, 958139571, 1322822218,
   1537002063, 1747873779, 1955562222, 2024104815, 2227730452, 2361852424,
   2428436474, 2756734187, 3204031479, 3329325298]

def shaH0 : List Nat :=
  [1779033703, 3144134277, 1013904242, 2773480762,
   1359893119, 2600822924, 528734635, 1541459225]

/-- SHA-256 message padding: 0x80, zeros, then the 64-bit big-endian bit length. -/
def shaPad (msg : List Nat) : List Nat :=
  let L := msg.length
  msg ++ 128 :: List.replicate ((64 + 55 - L % 64) % 64) 0 ++ i2osp 8 (L * 8)

def bytesToWords : List Nat → List Nat
  | a :: b :: c :: d :: rest => (a * 16777216 + b * 65536 + c * 256 + d) :: bytesToWords rest
  | _ => []

def shaSchedule : Nat → List Nat → List Nat
  | 0, w => w
  | n + 1, w =>
      let i := w.length
      let x := w32 (smallSigma1 (w.getD (i - 2) 0) + w.getD (i - 7) 0 +
        smallSigma0 (w.getD (i - 15) 0) + w.getD (i - 16) 0)
      shaSchedule n (w ++ [x])

def shaRound (st : List Nat) (kw : Nat × Nat) : List Nat :=
  match st with
  | [a, b, c, d, e, f, g, h] =>
      let ch := (e &&& f) ^^^ ((4294967295 ^^^ e) &&& g)
      let maj := (a &&& b) ^^^ (a &&& c) ^^^ (b &&& c)
      let t1 := w32 (h + bigSigma1 e + ch + kw.1 + kw.2)
      let t2 := w32 (bigSigma0 a + maj)
      [w32 (t1 + t2), a, b, c, w32 (d + t1), e, f, g]
  | st => st

def shaCompress (h : List Nat) (block : List Nat) : List Nat :=
  let w := shaSchedule 48 (bytesToWords block)
  let st := List.foldl shaRound h (shaK.zip w)
  (h.zip st).map fun p => w32 (p.1 + p.2)

def shaBlocksGo : Nat → List Nat → List Nat → List Nat
  | 0, h, _ => h
  | _, h, [] => h
  | fuel + 1, h, msg => shaBlocksGo fuel (shaCompress h (msg.take 64)) (msg.drop 64)

/-- SHA-256 of a byte sequence. -/
def sha256 (msg : List Nat) : List Nat :=
  let padded := shaPad msg
  (shaBlocksGo padded.length shaH0 padded).foldr (fun w acc => i2osp 4 w ++ acc) []

/-! ## Modular exponentiation -/

def powModAux : Nat → Nat → Nat → Nat → Nat → Nat
  | 0, _, _, _, acc => acc
  | fuel + 1, b, e, m, acc =>
      match e with
      | 0 => acc
      | e' + 1 =>
          match b * b % m, if (e' + 1) % 2 = 1 then acc * b % m else acc with
          | 0, 0 => powModAux fuel 0 ((e' + 1) / 2) m 0
          | 0, a + 1 => powModAux fuel 0 ((e' + 1) / 2) m (a + 1)
          | c + 1, 0 => powModAux fuel (c + 1) ((e' + 1) / 2) m 0
          | c + 1, a + 1 => powModAux fuel (c + 1) ((e' + 1) / 2) m (a + 1)

/-- b ^ e mod m by square and multiply (total, 0 when m = 0). -/
def powMod (b e m : Nat) : Nat :=
  if m = 0 then 0 else powModAux 4096 (b % m) e m (1 % m)

/-! ## RSA PKCS#1 v1.5 over SHA-256 (the rsa crate) -/

/-- Rust Result, as returned by the fallible utils functions. -/
inductive RustResult (α β : Type) : Type
  | ok (a : α) : RustResult α β
  | err (b : β) : RustResult α β
deriving DecidableEq

/-- DER DigestInfo header for SHA-256, per RFC 8017. -/
def sha256DigestInfoHeader : List Nat :=
  [0x30, 0x31, 0x30, 0x0d, 0x06, 0x09, 0x60, 0x86, 0x48, 0x01, 0x65,
   0x03, 0x04, 0x02, 0x01, 0x05, 0x00, 0x04, 0x20]

/-- EMSA-PKCS1-v1_5 encoding of the SHA-256 digest of msg into k bytes. -/
def emsaPkcs1v15 (k : Nat) (msg : List Nat) : List Nat :=
  let t := sha256DigestInfoHeader ++ sha256 msg
  [0, 1] ++ List.replicate (k - t.length - 3) 255 ++ [0] ++ t

def natByteLenAux : Nat → Nat → Nat
  | 0, _ => 0
  | f + 1, m => if m = 0 then 0 else natByteLenAux f (m / 256) + 1

/-- Number of bytes of a natural number, the key size k of an RSA modulus. -/
def natByteLen (m : Nat) : Nat := natByteLenAux 4096 m

/-- An RSA private key as held by the rsa crate: modulus, public and private exponent. -/
structure RsaPriv where
  n : Nat
  e : Nat
  d : Nat
deriving DecidableEq

/-- An RSA public key: modulus and public exponent. -/
structure RsaPub where
  n : Nat
  e : Nat
deriving DecidableEq

/-- Embeds utils::sign_sha256_rsa composed with Signature::to_bytes.  PKCS#1 v1.5
signing is deterministic: the rng passed by the source is unused by the padding. -/
def sign_sha256_rsa (key : RsaPriv) (data : List Nat) : List Nat :=
  let k := natByteLen key.n
  i2osp k (powMod (os2ip (emsaPkcs1v15 k data)) key.d key.n)

/-- Embeds utils::verify_sha256_rsa: RSASSA-PKCS1-v1_5 verification as performed
by the rsa crate (length check, s < n check, compare encoded digests). -/
def verify_sha256_rsa (key : RsaPub) (data sig : List Nat) : RustResult Unit Unit :=
  let k := natByteLen key.n
  if sig.length ≠ k then .err ()
  else if os2ip sig ≥ key.n then .err ()
  else if i2osp k (powMod (os2ip sig) key.e key.n) = emsaPkcs1v15 k data then .ok ()
  else .err ()

/-! ## utils.rs: request signing, client-invocation signing, webhook verification.
The source draws nonce and timestamp inside get_body_auth_header and pay_sign;
they are explicit parameters here, standing for the drawn values. -/

/-- Embeds utils::get_sign: signs "method\nuri\ntimestamp\nnonce\nbody\n". -/
def get_sign (key : RsaPriv) (method uri body nonce : String) (timestamp : Int) : String :=
  let strToSign := method ++ "\n" ++ uri ++ "\n" ++ toString timestamp ++ "\n" ++
    nonce ++ "\n" ++ body ++ "\n"
  b64encode (sign_sha256_rsa key (utf8 strToSign))

/-- Embeds utils::pay_sign_inner: signs "appid\ntimestamp\nnonce\nprepay_id=...\n". -/
def pay_sign_inner (key : RsaPriv) (app_id nonce : String) (timestamp : Int)
    (prepay_id : String) : String :=
  let strToSign := app_id ++ "\n" ++ toString timestamp ++ "\n" ++ nonce ++
    "\nprepay_id=" ++ prepay_id ++ "\n"
  b64encode (sign_sha256_rsa key (utf8 strToSign))

/-- Embeds utils::verify_response.  The raw body is taken as a string; the source
formats it through String::from_utf8_lossy, the identity on valid UTF-8. -/
def verify_response (key : RsaPub) (sign timestamp nonce body : String) :
    RustResult Unit Unit :=
  let strToSign := timestamp ++ "\n" ++ nonce ++ "\n" ++ body ++ "\n"
  match b64decode sign with
  | none => .err ()
  | some sig => verify_sha256_rsa key (utf8 strToSign) sig

/-- Embeds utils::get_body_auth_header, with the drawn nonce and timestamp as
parameters.  The format string is copied byte for byte from the source raw
string, including its trailing two double quotes after the serial number. -/
def get_body_auth_header (mchid : String) (key : RsaPriv) (serial : String)
    (method uri body nonce : String) (timestamp : Int) : String :=
  let sign := get_sign key method uri body nonce timestamp
  "WECHATPAY2-SHA256-RSA2048 mchid=\"" ++ mchid ++ "\",nonce_str=\"" ++ nonce ++
    "\",signature=\"" ++ sign ++ "\",timestamp=\"" ++ toString timestamp ++
    "\",serial_no=\"" ++ serial ++ "\"\""

/-! ## DER and PEM parsing, to read the keys pinned in the source tests -/

def derLen : List Nat → Option (Nat × List Nat)
  | [] => none
  | l :: rest =>
      if l < 128 then some (l, rest)
      else
        let nb := l - 128
        if rest.length < nb then none
        else some (os2ip (rest.take nb), rest.drop nb)

def derTlvAux : Nat → List Nat → Option (List (Nat × List Nat))
  | 0, _ => none
  | _, [] => some []
  | fuel + 1, tag :: rest => do
      let (len, rest2) ← derLen rest
      if rest2.length < len then none
      else do
        let tail ← derTlvAux fuel (rest2.drop len)
        some ((tag, rest2.take len) :: tail)

/-- Top-level DER TLV list of a byte sequence. -/
def derTlv (bs : List Nat) : Option (List (Nat × List Nat)) :=
  derTlvAux (bs.length + 1) bs

/-- Reads an RSA private key from PKCS#8 DER bytes, as pem + from_pkcs8_der. -/
def pkcs8RsaKey (der : List Nat) : Option RsaPriv := do
  let top ← derTlv der
  match top with
  | [(48, content)] =>
      match ← derTlv content with
      | [(2, _), (48, _), (4, pk)] =>
          match ← derTlv pk with
          | [(48, rc)] =>
              match ← derTlv rc with
              | [(2, _), (2, nB), (2, eB), (2, dB), (2, _), (2, _), (2, _), (2, _), (2, _)] =>
                  some ⟨os2ip nB, os2ip eB, os2ip dB⟩
              | _ => none
          | _ => none
      | _ => none
  | _ => none

/-- Reads an RSA public key from SubjectPublicKeyInfo DER bytes, as
pem + from_public_key_der. -/
def spkiRsaKey (der : List Nat) : Option RsaPub := do
  let top ← derTlv der
  match top with
  | [(48, content)] =>
      match ← derTlv content with
      | [(48, _), (3, bits)] =>
          match bits with
          | 0 :: rest =>
              match ← derTlv rest with
              | [(48, rc)] =>
                  match ← derTlv rc with
                  | [(2, nB), (2, eB)] => some ⟨os2ip nB, os2ip eB⟩
                  | _ => none
              | _ => none
          | _ => none
      | _ => none
  | _ => none

/-- Base64 body of a PEM blob given as its lines. -/
def pemDecode (lines : List String) : List Nat :=
  (b64decode (String.join lines)).getD []

/-! ## Key material pinned by the source tests (utils.rs tests module) -/

/-- Lines of the merchant test private key PEM from utils.rs (both test cases). -/
def testPemLines : List String :=
  ["MIIEvAIBADANBgkqhkiG9w0BAQEFAASCBKYwggSiAgEAAoIBAQCm2mb6q8gMKH/3",
   "CNTbpJAIrbqiBiQGEOtjGcBrDYltsGynWgNscqT7WvfzU14FQbYcQUC5T4Wvva7m",
   "i3fIp3OgX8VqMDNA0qebnr38Pe6kqiLyZgFpJPXlSKDyPyqhRbVTbXssvSMQeVKc",
   "dXeVxoNNeoOlNFHgF/P0io6AmAVnz+hN8SiZKuOsth5/zUTLGvtkgxBcQooQrtXh",
   "RcpLT798OyIb9xeJ2HO3xRtMv2+perEzb4gMibI74UBz+2QEbnkubPE+2jU2rRZu",
   "dnNEz/BPOt3Qj/w2V6/G0VumGDh6+UeMU0jv4aupHztWITC4Akn0l7lBCNy3lgl8",
   "VFaJnkIxAgMBAAECggEAYGL8aESB7NwciDWW2UdoWUsa7GxFtSdjAz2mFXGdeTsY",
   "mVh7b9OOkRGM+Qio4LqEHDBp1mMk5E/cUJwy1zw8pGGO5nfvs7u9TT3XnHaefIs4",
   "YvUgTYAneIuLRkXNN5rQU+CD7mVYczTSz0Vgjqo9wa1LjUz7G0xbBmJgTdMEFGJs",
   "eJjy6AbJo0CGIwp6HJbTm4CmOUgXnnDAIbEGTIRImkZFH/rzneIeR7oZ77FVwxr1",
   "CZB2gfRCov/yRPbw8vnryYkmvQ7D/ze3j5097vRg/MoDGBSdoOwcmo75vyofr0AS",
   "zytMjmHYyifqkf5slPropSiJeGf4p/7gtKyF6dE/XQKBgQDVAlJ+4U5ZVGOuDc3+",
   "sAhz8CTzgFNlq9vKuSoFK6hOz2L+cwj+E7NXGkOe2DsHHZNy2Xqxk7caKhPEp1z9",
   "hhpMpyLVMoFt6CKemyoRBWDCQwLLwem9SZF/IAyovBkLiH36P42Jm26gUkNMKC/5",
   "Zhtqxf6RZgRQzbVudJi47vIRCwKBgQDIh0+v27Oo+DM3fhObH4I1NrXpWOEGH7OQ",
   "G1dEsMuFYF4hjGhg0kBEP3w9vVdl2+mRllZKTsx9oqjb8OibPLLIH8xsdbAB0WLf",
   "JvjLu4wl/ILUzN1RI03dWnnv2EnEeQn6c3hizvrJ9wR5U4ue9RPVnQooJ0hZF1PU",
   "uCL5fWK3MwKBgElReU/PAYbh80WP3t3Rfbdaa32dKBeQ5iCLR5lsA4zM+YgX1HqQ",
   "EWTj126vgvHaDkyz6vWAoL/Sx+cirHFfXWIRDX5Q2hgYlQH+6qXdMgbrxeSYpHnQ",
   "/tHBGFpkFELSAnrGsVMyOwvYBO4LzyeLK9i+ufcWJFoj1FVmsMLHDG8tAoGARdbi",
   "iQQCoYG4DMarO2aQ6cmhN6EN1h0qY7EyBqlwaIZ0okiNfdMcMOjPc41DKCWcRmlO",
   "qlihXcxN9TQFPzO3rH1urAOdBjUPs1qWYhZyrDQyuLyVBBJApyxAtajloDjrob+f",
   "mQIvVDHk7ACN6xG+E7K6+9salnTKbJapD618uQMCgYBNy6XUvzLkP/A1U/UZdtcx",
   "l8GwU/dturLxz4CyGbqDw4ubaYY2e13lnqHUqQgPtiSyH51nq3tdo8G0YAJdfkSv",
   "KvnfslW91fyEBUKnkdW1o3/1UFU/wprZ7ixVL/F42A4xDu7OFE8EnweJOZ0jWceE",
   "OdhCkaIGBCfRnlECRK8UyQ=="]

/-- Lines of the platform public key PEM from the verify_response test. -/
def wxPubPemLines : List String :=
  ["MIIBIjANBgkqhkiG9w0BAQEFAAOCAQ8AMIIBCgKCAQEAwXNI6sdlknHBnK8Fu2U6",
   "Cwor9qY747jP8KAfeBMeveEt1TqaHkLfaSD07trZLhGpfs8/AHqjhgSMO1O10YQW",
   "OrrJ4hjIWPKqxbgrYMkBQc+mwdiWp4W3ByCqxBRagCveCXRWCmuJYovl9H/bsDI0",
   "iGbpVtEOghJtfciisYSgxcLufUDTRkvwxjIBK1pCRjk33jJ5YTBWTHMRtMAOcFLN",
   "F6hdEYdX8SPsgHHeLZ5Lv2T/686w1xtgCHef/sd4uSfWmyzsalQdHG/e4IyYmrhx",
   "+O3VBoNDzE3nx23bFeV/RVNCG7cV6VhmYokJNHa/erIPkEmEFID6A5wQOXuxUkmJ",
   "WwIDAQAB"]

/-- The merchant test private key, decoded from its PEM as the tests do. -/
def testPrivKey : RsaPriv :=
  (pkcs8RsaKey (pemDecode testPemLines)).getD ⟨0, 0, 0⟩

/-- The platform public key of the verify_response test, decoded from its PEM. -/
def wxPubKey : RsaPub :=
  (spkiRsaKey (pemDecode wxPubPemLines)).getD ⟨0, 0⟩

/-! ## AES-256-GCM (the aes and aes_gcm crates) -/

/-- The AES S-box (FIPS 197 figure 7). -/
def sboxTable : List Nat :=
  [0x63,0x7c,0x77,0x7b,0xf2,0x6b,0x6f,0xc5,0x30,0x01,0x67,0x2b,0xfe,0xd7,0xab,0x76,
   0xca,0x82,0xc9,0x7d,0xfa,0x59,0x47,0xf0,0xad,0xd4,0xa2,0xaf,0x9c,0xa4,0x72,0xc0,
   0xb7,0xfd,0x93,0x26,0x36,0x3f,0xf7,0xcc,0x34,0xa5,0xe5,0xf1,0x71,0xd8,0x31,0x15,
   0x04,0xc7,0x23,0xc3,0x18,0x96,0x05,0x9a,0x07,0x12,0x80,0xe2,0xeb,0x27,0xb2,0x75,
   0x09,0x83,0x2c,0x1a,0x1b,0x6e,0x5a,0xa0,0x52,0x3b,0xd6,0xb3,0x29,0xe3,0x2f,0x84,
   0x53,0xd1,0x00,0xed,0x20,0xfc,0xb1,0x5b,0x6a,0xcb,0xbe,0x39,0x4a,0x4c,0x58,0xcf,
   0xd0,0xef,0xaa,0xfb,0x43,0x4d,0x33,0x85,0x45,0xf9,0x02,0x7f,0x50,0x3c,0x9f,0xa8,
   0x51,0xa3,0x40,0x8f,0x92,0x9d,0x38,0xf5,0xbc,0xb6,0xda,0x21,0x10,0xff,0xf3,0xd2,
   0xcd,0x0c,0x13,0xec,0x5f,0x97,0x44,0x17,0xc4,0xa7,0x7e,0x3d,0x64,0x5d,0x19,0x73,
   0x60,0x81,0x4f,0xdc,0x22,0x2a,0x90,0x88,0x46,0xee,0xb8,0x14,0xde,0x5e,0x0b,0xdb,
   0xe0,0x32,0x3a,0x0a,0x49,0x06,0x24,0x5c,0xc2,0xd3,0xac,0x62,0x91,0x95,0xe4,0x79,
   0xe7,0xc8,0x37,0x6d,0x8d,0xd5,0x4e,0xa9,0x6c,0x56,0xf4,0xea,0x65,0x7a,0xae,0x08,
   0xba,0x78,0x25,0x2e,0x1c,0xa6,0xb4,0xc6,0xe8,0xdd,0x74,0x1f,0x4b,0xbd,0x8b,0x8a,
   0x70,0x3e,0xb5,0x66,0x48,0x03,0xf6,0x0e,0x61,0x35,0x57,0xb9,0x86,0xc1,0x1d,0x9e,
   0xe1,0xf8,0x98,0x11,0x69,0xd9,0x8e,0x94,0x9b,0x1e,0x87,0xe9,0xce,0x55,0x28,0xdf,
   0x8c,0xa1,0x89,0x0d,0xbf,0xe6,0x42,0x68,0x41,0x99,0x2d,0x0f,0xb0,0x54,0xbb,0x16]

def sb (b : Nat) : Nat := sboxTable.getD b 0

/-- Multiplication by x in GF(2^8) with the AES polynomial. -/
def xtime (b : Nat) : Nat := if b < 128 then b * 2 else (b * 2) % 256 ^^^ 27

def rotWord (w : Nat) : Nat := w % 16777216 * 256 + w / 16777216

def subWord (w : Nat) : Nat :=
  sb (w / 16777216) * 16777216 + sb (w / 65536 % 256) * 65536 + sb (w / 256 % 256) * 256 +
    sb (w % 256)

def rconList : List Nat := [1, 2, 4, 8, 16, 32, 64]

def keyExpandAux : Nat → List Nat → List Nat
  | 0, w => w
  | f + 1, w =>
      let i := w.length
      let prev := w.getD (i - 1) 0
      let t :=
        if i % 8 = 0 then subWord (rotWord prev) ^^^ rconList.getD (i / 8 - 1) 0 * 16777216
        else if i % 8 = 4 then subWord prev
        else prev
      keyExpandAux f (w ++ [w.getD (i - 8) 0 ^^^ t])

/-- AES-256 key schedule: 60 words from the 32-byte key. -/
def keyExpand (key : List Nat) : List Nat := keyExpandAux 52 (bytesToWords key)

def wordBytes (w : Nat) : List Nat := [w / 16777216 % 256, w / 65536 % 256, w / 256 % 256, w % 256]

def roundKeyBytes (ws : List Nat) (r : Nat) : List Nat :=
  wordBytes (ws.getD (4 * r) 0) ++ wordBytes (ws.getD (4 * r + 1) 0) ++
    wordBytes (ws.getD (4 * r + 2) 0) ++ wordBytes (ws.getD (4 * r + 3) 0)

def zipXor (a b : List Nat) : List Nat := List.zipWith (fun x y => x ^^^ y) a b

/-- ShiftRows as a permutation of the flat 16-byte column-major state. -/
def shiftRowsIdx : List Nat := [0, 5, 10, 15, 4, 9, 14, 3, 8, 13, 2, 7, 12, 1, 6, 11]

def shiftRows (st : List Nat) : List Nat := shiftRowsIdx.map fun i => st.getD i 0

def subBytes (st : List Nat) : List Nat := st.map sb

def mixColumnsBytes : List Nat → List Nat
  | a :: b :: c :: d :: rest =>
      (xtime a ^^^ (xtime b ^^^ b) ^^^ c ^^^ d) ::
        (a ^^^ xtime b ^^^ (xtime c ^^^ c) ^^^ d) ::
        (a ^^^ b ^^^ xtime c ^^^ (xtime d ^^^ d)) ::
        ((xtime a ^^^ a) ^^^ b ^^^ c ^^^ xtime d) :: mixColumnsBytes rest
  | s => s

def aesMainRounds : List (List Nat) → List Nat → List Nat
  | [], st => st
  | rk :: rest, st => aesMainRounds rest (zipXor (mixColumnsBytes (shiftRows (subBytes st))) rk)

/-- AES-256 block encryption of 16 bytes. -/
def aesEncBlock (key block : List Nat) : List Nat :=
  let ws := keyExpand key
  let st0 := zipXor block (roundKeyBytes ws 0)
  let stMain := aesMainRounds ((List.range 13).map fun r => roundKeyBytes ws (r + 1)) st0
  zipXor (shiftRows (subBytes stMain)) (roundKeyBytes ws 14)

/-- Forces a natural number to a literal before continuing: keeps kernel
evaluation of long accumulator chains in constant stack space. -/
def natSeq (a : Nat) (k : Nat → Nat) : Nat :=
  match a with
  | 0 => k 0
  | n + 1 => k (n + 1)

/-- The GCM reduction constant R, the MSB-first image of the GHASH polynomial. -/
def gcmR : Nat := 0xe1000000000000000000000000000000

def gmulAux : Nat → Nat → Nat → Nat → Nat
  | 0, _, _, z => z
  | f + 1, x, v, z =>
      natSeq (if x / 2 ^ 127 % 2 = 1 then z ^^^ v else z) fun z2 =>
        natSeq (if v % 2 = 1 then v / 2 ^^^ gcmR else v / 2) fun v2 =>
          natSeq (x * 2 % 2 ^ 128) fun x2 =>
            gmulAux f x2 v2 z2

/-- GF(2^128) multiplication in the GCM bit order. -/
def gmul (x h : Nat) : Nat := gmulAux 128 x h 0

def pad16 (bs : List Nat) : List Nat := bs ++ List.replicate ((16 - bs.length % 16) % 16) 0

def ghashAux : Nat → Nat → Nat → List Nat → Nat
  | 0, _, y, _ => y
  | _, _, y, [] => y
  | f + 1, h, y, bs =>
      natSeq (gmul (y ^^^ os2ip (bs.take 16)) h) fun y2 => ghashAux f h y2 (bs.drop 16)

/-- GHASH of the padded aad, padded ciphertext and the two bit lengths. -/
def ghash (h : Nat) (aad ct : List Nat) : Nat :=
  let data := pad16 aad ++ pad16 ct ++ i2osp 8 (aad.length * 8) ++ i2osp 8 (ct.length * 8)
  ghashAux (data.length + 16) h 0 data

def gcmCtrAux : Nat → List Nat → List Nat → Nat → List Nat → List Nat
  | 0, _, _, _, _ => []
  | _, _, _, _, [] => []
  | f + 1, key, iv, ctr, data =>
      zipXor (data.take 16) (aesEncBlock key (iv ++ i2osp 4 ctr)) ++
        gcmCtrAux f key iv (ctr + 1) (data.drop 16)

/-- The GCM authentication tag over aad and ciphertext. -/
def gcmTag (key iv aad ct : List Nat) : List Nat :=
  let h := os2ip (aesEncBlock key (List.replicate 16 0))
  zipXor (i2osp 16 (ghash h aad ct)) (aesEncBlock key (iv ++ [0, 0, 0, 1]))

/-- AES-256-GCM sealing: ciphertext followed by the 16-byte tag, the message
format produced by the aes_gcm Aead encrypt.  Modelled from the spec: the
encryption direction is not in the repository, only decryption is. -/
def gcmSeal (key iv aad pt : List Nat) : List Nat :=
  let ct := gcmCtrAux (pt.length + 16) key iv 2 pt
  ct ++ gcmTag key iv aad ct

/-- AES-256-GCM opening of a ciphertext-and-tag message, as aes_gcm Aead decrypt. -/
def gcmOpen (key iv aad msg : List Nat) : Option (List Nat) :=
  if msg.length < 16 then none
  else
    let ct := msg.take (msg.length - 16)
    let tag := msg.drop (msg.length - 16)
    if tag = gcmTag key iv aad ct then some (gcmCtrAux (ct.length + 16) key iv 2 ct)
    else none

/-! ## Strict UTF-8 decoding (Rust String::from_utf8) -/

def utf8DecodeAux : Nat → List Nat → List Char → Option (List Char)
  | 0, _, _ => none
  | _, [], acc => some acc.reverse
  | f + 1, b :: rest, acc =>
      if b < 128 then utf8DecodeAux f rest (Char.ofNat b :: acc)
      else if 194 ≤ b ∧ b ≤ 223 then
        match rest with
        | c1 :: rest2 =>
            if 128 ≤ c1 ∧ c1 ≤ 191 then
              utf8DecodeAux f rest2 (Char.ofNat ((b - 192) * 64 + (c1 - 128)) :: acc)
            else none
        | _ => none
      else if 224 ≤ b ∧ b ≤ 239 then
        match rest with
        | c1 :: c2 :: rest2 =>
            if (if b = 224 then 160 else 128) ≤ c1 ∧ c1 ≤ (if b = 237 then 159 else 191) ∧
                128 ≤ c2 ∧ c2 ≤ 191 then
              utf8DecodeAux f rest2
                (Char.ofNat ((b - 224) * 4096 + (c1 - 128) * 64 + (c2 - 128)) :: acc)
            else none
        | _ => none
      else if 240 ≤ b ∧ b ≤ 244 then
        match rest with
        | c1 :: c2 :: c3 :: rest2 =>
            if (if b = 240 then 144 else 128) ≤ c1 ∧ c1 ≤ (if b = 244 then 143 else 191) ∧
                128 ≤ c2 ∧ c2 ≤ 191 ∧ 128 ≤ c3 ∧ c3 ≤ 191 then
              utf8DecodeAux f rest2
                (Char.ofNat ((b - 240) * 262144 + (c1 - 128) * 4096 + (c2 - 128) * 64 +
                  (c3 - 128)) :: acc)
            else none
        | _ => none
      else none

/-- Strict UTF-8 decoding of a byte sequence, as Rust String::from_utf8. -/
def utf8Decode (bs : List Nat) : Option String :=
  (utf8DecodeAux (bs.length + 1) bs []).map String.mk

/-! ## psp/wxpay_jsapi.rs: EncryptedResource and its decryption -/

/-- The encrypted resource carried in a webhook body.  The serde derive gives
associated_data the default empty string when the JSON field is absent. -/
structure EncryptedResource where
  ciphertext : String
  nonce : String
  associated_data : String
deriving DecidableEq

/-- Builds an EncryptedResource from the JSON fields, an absent associated_data
becoming the serde default empty string. -/
def EncryptedResource.ofJson (ciphertext nonce : String)
    (associated_data : Option String) : EncryptedResource :=
  ⟨ciphertext, nonce, associated_data.getD ""⟩

/-- Outcome of running EncryptedResource::decrypt: a Rust panic, an Err(()),
or Ok with the decrypted plaintext string. -/
inductive DecryptOutcome
  | panic
  | err
  | ok (plaintext : String)
deriving DecidableEq

/-- Embeds EncryptedResource::decrypt.  Key::from_slice and Nonce::from_slice
panic on a length other than 32 and 12; base64, tag and UTF-8 failures are Err. -/
def EncryptedResource.decrypt (res : EncryptedResource) (key : List Nat) : DecryptOutcome :=
  if key.length ≠ 32 then .panic
  else if (utf8 res.nonce).length ≠ 12 then .panic
  else
    match b64decode res.ciphertext with
    | none => .err
    | some msg =>
        match gcmOpen key (utf8 res.nonce) (utf8 res.associated_data) msg with
        | none => .err
        | some data =>
            match utf8Decode data with
            | none => .err
            | some s => .ok s

/-! ## lib.rs: statuses, rows and the orchestrator refund operations -/

inductive PaymentStatus
  | pending
  | success
  | failed
  | refunded
deriving DecidableEq

inductive RefundStatus
  | pending
  | success
  | failed
deriving DecidableEq

inductive PaymentEventKind
  | paymentCreate
  | paymentCallback
  | paymentRefund
  | refundCallback
deriving DecidableEq

/-- The columns of a bokchoy.payments row involved in the refund flows.
refunded_amount is created 0 by the schema default. -/
structure Payment where
  amount : Int
  refunded_amount : Int
  provider_trade_no : Option String
  status : PaymentStatus
deriving DecidableEq

/-- The columns of a bokchoy.refunds row involved in the refund flows. -/
structure Refund where
  amount : Int
  reason : Option String
  status : RefundStatus
  provider_refund_no : Option String
deriving DecidableEq

/-- The adapter refund response: gateway refund number and immediate status string. -/
structure RefundResponse where
  provider_refund_no : String
  status : String
deriving DecidableEq

/-- Embeds PaymentService::refund for one payment row, the gateway response
being an input.  Returns none when the source would panic on expect
(payment without provider_trade_no); otherwise the final payment row, the
final refund row, and the appended events. -/
def PaymentService.refund (p : Payment) (amount : Int) (reason : Option String)
    (res : RefundResponse) : Option (Payment × Refund × List PaymentEventKind) :=
  match p.provider_trade_no with
  | none => none
  | some _ =>
      let status := if res.status = "SUCCESS" then RefundStatus.success else RefundStatus.pending
      let p' :=
        if status = RefundStatus.success then
          { p with refunded_amount := p.refunded_amount + amount }
        else p
      let r : Refund :=
        { amount := amount, reason := reason, status := status,
          provider_refund_no := some res.provider_refund_no }
      some (p', r, [PaymentEventKind.paymentRefund])

/-- Embeds PaymentService::handle_refund_callback for the matched refund row and
its owning payment, the adapter outcome status being an input. -/
def PaymentService.handle_refund_callback (p : Payment) (r : Refund) (st : RefundStatus) :
    Payment × Refund × List PaymentEventKind :=
  let r' := { r with status := st }
  let p' :=
    if st = RefundStatus.success then
      { p with refunded_amount := p.refunded_amount + r.amount }
    else p
  (p', r', [PaymentEventKind.refundCallback])

/-- Embeds the WxPayJsapi::refund_callback status mapping of the gateway
refund_status string. -/
def refundCallbackStatus (s : String) : RefundStatus :=
  if s = "SUCCESS" then .success
  else if s = "CLOSED" ∨ s = "ABNORMAL" then .failed
  else .pending

/-- Observable state of one payment with its refunds and the event ledger. -/
structure PayState where
  payment : Payment
  refunds : List Refund
  events : List PaymentEventKind
deriving DecidableEq

/-- A refund operation against a payment: an orchestrator refund call with the
gateway response it receives, or a refund callback delivery carrying the
gateway refund_status string for an existing refund row. -/
inductive RefundOp
  | gatewayRefund (amount : Int) (reason : Option String) (res : RefundResponse)
  | gatewayCallback (idx : Nat) (refund_status : String)
deriving DecidableEq

/-- One refund operation applied to the observable state.  A failed row lookup
is the source panicking on fetch_one: the transaction aborts and no state
change is observed. -/
def refundStep (s : PayState) (op : RefundOp) : PayState :=
  match op with
  | .gatewayRefund amount reason res =>
      match PaymentService.refund s.payment amount reason res with
      | none => s
      | some (p', r, evs) =>
          { payment := p', refunds := s.refunds ++ [r], events := s.events ++ evs }
  | .gatewayCallback idx refund_status =>
      match s.refunds[idx]? with
      | none => s
      | some r =>
          let st := refundCallbackStatus refund_status
          let (p', r', evs) := PaymentService.handle_refund_callback s.payment r st
          { payment := p', refunds := s.refunds.set idx r', events := s.events ++ evs }

/-- A sequence of refund operations applied in order. -/
def refundRun (s : PayState) (ops : List RefundOp) : PayState :=
  ops.foldl refundStep s

/-! ## psp/wxpay_jsapi.rs: the webhook handling pipeline of the adapter.
serde_json parsing of the raw body and of the decrypted plaintext belongs to an
external crate; its results are passed as inputs (parsedBody, parsePlain),
keeping the verification-before-parsing order of the source observable. -/

/-- The WxPayJsapi adapter configuration fields used by the callbacks. -/
structure WxPayJsapiCfg where
  appid : String
  mchid : String
  wxpay_public_key_id : String
  wxpay_public_key : RsaPub
  apiv3_key : String

/-- The JSON fields of a webhook body the callbacks look at.  A missing key
reads as JSON null, which compares unequal to every string. -/
structure WebhookBody where
  event_type : Option String
  resource_type : Option String
  resource : Option EncryptedResource

/-- An inbound webhook request: the four Wechatpay headers, the raw body and
the serde_json parse of the body. -/
structure CallbackRequest where
  timestamp : Option String
  nonce : Option String
  serial : Option String
  signature : Option String
  body : String
  parsedBody : Option WebhookBody

/-- The decrypted payment resource fields used by pay_callback. -/
structure PlainResource where
  appid : String
  mchid : String
  out_trade_no : String
  transaction_id : String
  trade_state : String
  success_time : Int

/-- The decrypted refund resource fields used by refund_callback. -/
structure PlainRefundResource where
  mchid : String
  out_refund_no : String
  refund_id : String
  refund_status : String
  success_time : Option Int

/-- Result of a callback handler: a Rust panic, or the outcome together with
the acknowledgement body sent back to the gateway. -/
inductive CallbackResult (α : Type)
  | panic
  | ok (outcome : α) (ackBody : String)

/-- The pay_callback outcome fields. -/
structure PayCallbackOutcome where
  id : String
  provider_trade_no : String
  success_at : Int

/-- The refund_callback outcome fields. -/
structure RefundCallbackOutcome where
  refund_id : String
  provider_refund_no : String
  success_at : Option Int
  status : RefundStatus

/-- Embeds WxPayJsapi::pay_callback: header extraction, serial comparison,
signature verification, decryption, field validation, acknowledgement. -/
def WxPayJsapi.pay_callback (cfg : WxPayJsapiCfg) (req : CallbackRequest)
    (parsePlain : String → Option PlainResource) : CallbackResult PayCallbackOutcome :=
  match req.timestamp, req.nonce, req.serial, req.signature with
  | some ts, some nonce, some serial, some sign =>
      if serial ≠ cfg.wxpay_public_key_id then .panic
      else
        match verify_response cfg.wxpay_public_key sign ts nonce req.body with
        | .err _ => .panic
        | .ok _ =>
            match req.parsedBody with
            | none => .panic
            | some body =>
                if body.event_type ≠ some "TRANSACTION.SUCCESS" then .panic
                else if body.resource_type ≠ some "encrypt-resource" then .panic
                else
                  match body.resource with
                  | none => .panic
                  | some encrypted =>
                      match encrypted.decrypt (utf8 cfg.apiv3_key) with
                      | .ok plain =>
                          match parsePlain plain with
                          | none => .panic
                          | some resource =>
                              if resource.appid ≠ cfg.appid ∨ resource.mchid ≠ cfg.mchid then
                                .panic
                              else if resource.trade_state ≠ "SUCCESS" then .panic
                              else
                                .ok ⟨resource.out_trade_no, resource.transaction_id,
                                  resource.success_time⟩ "\x7b\x7d"
                      | _ => .panic
  | _, _, _, _ => .panic

/-- Embeds WxPayJsapi::refund_callback: same pipeline, without the event_type
check, mapping the refund status string through refundCallbackStatus. -/
def WxPayJsapi.refund_callback (cfg : WxPayJsapiCfg) (req : CallbackRequest)
    (parsePlain : String → Option PlainRefundResource) :
    CallbackResult RefundCallbackOutcome :=
  match req.timestamp, req.nonce, req.serial, req.signature with
  | some ts, some nonce, some serial, some sign =>
      if serial ≠ cfg.wxpay_public_key_id then .panic
      else
        match verify_response cfg.wxpay_public_key sign ts nonce req.body with
        | .err _ => .panic
        | .ok _ =>
            match req.parsedBody with
            | none => .panic
            | some body =>
                if body.resource_type ≠ some "encrypt-resource" then .panic
                else
                  match body.resource with
                  | none => .panic
                  | some encrypted =>
                      match encrypted.decrypt (utf8 cfg.apiv3_key) with
                      | .ok plain =>
                          match parsePlain plain with
                          | none => .panic
                          | some resource =>
                              if resource.mchid ≠ cfg.mchid then .panic
                              else
                                .ok ⟨resource.out_refund_no, resource.refund_id,
                                  resource.success_time,
                                  refundCallbackStatus resource.refund_status⟩ "\x7b\x7d"
                      | _ => .panic
  | _, _, _, _ => .panic

/-! ## Canonical strings as worded by the specification (for refinement claims) -/

/-- The canonical request string of spec section 4.1, five newline-terminated
fields in order method, uri path, timestamp, nonce, body. -/
def specCanonicalRequest (method uri_path timestamp nonce body : String) : String :=
  method ++ "\n" ++ uri_path ++ "\n" ++ timestamp ++ "\n" ++ nonce ++ "\n" ++ body ++ "\n"

/-- The canonical client-invocation string of spec section 4.1. -/
def specCanonicalClientInvocation (app_id timestamp nonce prepay_id : String) : String :=
  app_id ++ "\n" ++ timestamp ++ "\n" ++ nonce ++ "\n" ++ "prepay_id=" ++ prepay_id ++ "\n"

/-- The canonical webhook string of spec section 4.2. -/
def specCanonicalWebhook (timestamp nonce raw_body : String) : String :=
  timestamp ++ "\n" ++ nonce ++ "\n" ++ raw_body ++ "\n"

/-! ## Predicates for the refund-sequence invariant -/

/-- A refund operation whose requested amount is nonnegative. -/
def RefundOp.amountOk : RefundOp → Bool
  | .gatewayRefund a _ _ => decide (0 ≤ a)
  | .gatewayCallback _ _ => true

/-- The refunded amount and all refund-row amounts of a state are nonnegative. -/
def stateAmountsOk (s : PayState) : Bool :=
  decide (0 ≤ s.payment.refunded_amount) && s.refunds.all fun r => decide (0 ≤ r.amount)

/-! ## Test vectors pinned by the source tests, and derived fixtures -/

/-- The request body of the test_body_sign test in utils.rs. -/
def wxTestBody : String :=
  "\x7b\"appid\":\"wxd678efh567hg6787\",\"mchid\":\"1900007291\",\"description\":\"Image形象店-深圳腾大-QQ公仔\",\"out_trade_no\":\"1217752501201407033233368018\",\"notify_url\":\"https://www.weixin.qq.com/wxpay/pay.php\",\"amount\":\x7b\"total\":100,\"currency\":\"CNY\"\x7d,\"payer\":\x7b\"openid\":\"oUpF8uMuAJO_M2pxb1Q9zNjWeS6o\"\x7d\x7d"

/-- The pinned signature of the test_body_sign test in utils.rs. -/
def wxTestBodySig : String :=
  "jnks4dlrPw3ZX+ozVvSK39oa0t7OMBsg83BHAwd8BRdUFiVaQNTLTvci+wURgP1OQBbKYhFGvt7iqYpDSTQkp7Uq1sltaQKyncCyrA1g88m5bsKERQfPyT0ahSwKTYJ1CAn9QiJuSJRq1QsQs07eehbU/k9BCS51jTyc1Jpsi2H77HF9f/BnjXAOP3/sPObg6V5Ee4EzwLox684hhuMuIwHo7D8KFk3LIHOKDcNI4It1aCXydFWNpNK+SG86VUDe5kwoDpw4Ulqfu9z8OFDGbDs9TCxEv8iqQzbpxOlEVoOe2kalSYM5kApQb3nZcxdUtoE0liJGW3RGUNE0t4v01A=="

/-- The pinned signature of the get_pay_sign test in utils.rs. -/
def wxPaySignResult : String :=
  "mI35pfNEQV6777ke/1T+LJLQDNTm7yeoUJH+j/adPGhmCCi0PbgkvYQTRcXH0uibcLVtvFLdGLpmoYO9FV6lBBsTAjuhh5YOvQi0e2g3e0yytitiNET9FEuqM0pjnKfRW4K6LIZDdbWJv9KhZUx3DrJa5TL7OJ7VdADVivxVySIlPVKjGwuCXzuXSJes0UcILgWQUMyha5/3nYofuHtS7r+KYyMuxD+oJ9VM1Qdxk4UIG59CP5Y3wtYIFybyF3bdu1caHTRRX+DLyMXyYA/IrTmiW01c4RPjpHBX5Dk1sZyY1zVsWNsvMHr2e1NTWtBxKJ+qk5N61J7caYoepHFaxw=="

/-- The webhook signature of the verify_response test in utils.rs. -/
def wxVerifySig : String :=
  "mfI1CPqvBrgcXfgXMFjdNIhBf27ACE2YyeWsWV9ZI7T7RU0vHvbQpu9Z32ogzc+k8ZC5n3kz7h70eWKjgqNdKQF0eRp8mVKlmfzMLBVHbssB9jEZEDXThOX1XFqX7s7ymia1hoHQxQagPGzkdWxtlZPZ4ZPvr1RiqkgAu6Is8MZgXXrRoBKqjmSdrP1N7uxzJ/cjfSiis9FiLjuADoqmQ1P7p2N876YPAol7Rn0+GswwAwxldbdLrmVSjfytfSBJFqTMHn4itojgxSWWN1byuckQt8hSTEv/Lg97QoeGniYP17T80pJeQyL3b+295FPHSO2AtvCgyIbKMZ0BALilAA=="

/-- wxVerifySig with the first byte of the decoded signature flipped, re-encoded. -/
def wxVerifySigFlipped : String :=
  "mPI1CPqvBrgcXfgXMFjdNIhBf27ACE2YyeWsWV9ZI7T7RU0vHvbQpu9Z32ogzc+k8ZC5n3kz7h70eWKjgqNdKQF0eRp8mVKlmfzMLBVHbssB9jEZEDXThOX1XFqX7s7ymia1hoHQxQagPGzkdWxtlZPZ4ZPvr1RiqkgAu6Is8MZgXXrRoBKqjmSdrP1N7uxzJ/cjfSiis9FiLjuADoqmQ1P7p2N876YPAol7Rn0+GswwAwxldbdLrmVSjfytfSBJFqTMHn4itojgxSWWN1byuckQt8hSTEv/Lg97QoeGniYP17T80pJeQyL3b+295FPHSO2AtvCgyIbKMZ0BALilAA=="

/-- The webhook body of the verify_response test in utils.rs. -/
def wxVerifyBody : String :=
  "\x7b\"code_url\":\"weixin://wxpay/bizpayurl?pr=JyC91EIz1\"\x7d"

/-- wxVerifyBody with one byte flipped: the final digit 1 becomes 0. -/
def wxVerifyBodyFlipped : String :=
  "\x7b\"code_url\":\"weixin://wxpay/bizpayurl?pr=JyC91EIz0\"\x7d"

/-- A 32-byte api key fixture for the decryption claims. -/
def gcmTestKey : String := "0123456789abcdef0123456789abcdef"

/-- A 12-byte nonce fixture for the decryption claims. -/
def gcmTestNonce : String := "abcdefghijkl"

/-- A refund-resource plaintext fixture for the decryption claims. -/
def gcmTestPlain : String :=
  "\x7b\"mchid\":\"1900007291\",\"out_refund_no\":\"50300807092024\",\"refund_status\":\"SUCCESS\"\x7d"

/-- AES-256-GCM sealing of gcmTestPlain under gcmTestKey, gcmTestNonce and the
associated data "transaction", base64-encoded (ciphertext then tag). -/
def gcmTestCiphertext : String :=
  "Eu6k3KOMCfFZPsMoOqloD2sDgi6brE00a8ph7rc6u4QIl86TDG7QlnpJoJA2o7Dtp2eMho98Wtmsmik4wsnXNriS/biJ0lxvVgxAK2w7tx+Hy/IReFF29nYPM1xDXYAIbg=="

/-- gcmTestCiphertext with its first ciphertext byte flipped. -/
def gcmTestCiphertextFlipped : String :=
  "E+6k3KOMCfFZPsMoOqloD2sDgi6brE00a8ph7rc6u4QIl86TDG7QlnpJoJA2o7Dtp2eMho98Wtmsmik4wsnXNriS/biJ0lxvVgxAK2w7tx+Hy/IReFF29nYPM1xDXYAIbg=="

/-! # Theorems -/

/-! ## Refund state machine lemmas -/

theorem stateAmountsOk_iff (s : PayState) :
    stateAmountsOk s = true ↔
      0 ≤ s.payment.refunded_amount ∧ ∀ r ∈ s.refunds, 0 ≤ r.amount := by
  simp [stateAmountsOk, List.all_eq_true]


theorem refundStep_mono (s : PayState) (op : RefundOp)
    (hs : stateAmountsOk s = true) (hop : op.amountOk = true) :
    stateAmountsOk (refundStep s op) = true ∧
      s.payment.refunded_amount ≤ (refundStep s op).payment.refunded_amount := by
  rw [stateAmountsOk_iff] at hs
  obtain ⟨h1, h2⟩ := hs
  cases op with
  | gatewayRefund a reason res =>
      have ha : 0 ≤ a := by simpa [RefundOp.amountOk] using hop
      rcases htn : s.payment.provider_trade_no with _ | tn
      · simp only [refundStep, PaymentService.refund, htn]
        exact ⟨(stateAmountsOk_iff s).mpr ⟨h1, h2⟩, le_refl _⟩
      · by_cases hsucc : res.status = "SUCCESS"
        · simp only [refundStep, PaymentService.refund, htn, hsucc, if_pos, reduceIte,
            stateAmountsOk_iff]
          refine ⟨⟨add_nonneg h1 ha, ?_⟩, le_add_of_nonneg_right ha⟩
          intro r hr
          rcases List.mem_append.mp hr with hr | hr
          · exact h2 r hr
          · simp only [List.mem_singleton] at hr
            subst hr
            exact ha
        · simp only [refundStep, PaymentService.refund, htn, hsucc, reduceIte,
            stateAmountsOk_iff]
          refine ⟨⟨h1, ?_⟩, le_refl _⟩
          intro r hr
          rcases List.mem_append.mp hr with hr | hr
          · exact h2 r hr
          · simp only [List.mem_singleton] at hr
            subst hr
            exact ha
  | gatewayCallback idx st =>
      rcases hg : s.refunds[idx]? with _ | r
      · simp only [refundStep, hg]
        exact ⟨(stateAmountsOk_iff s).mpr ⟨h1, h2⟩, le_refl _⟩
      · have hrmem : r ∈ s.refunds := List.getElem?_mem hg
        have hra : 0 ≤ r.amount := h2 r hrmem
        by_cases hsucc : refundCallbackStatus st = RefundStatus.success
        · simp only [refundStep, hg, PaymentService.handle_refund_callback, hsucc, reduceIte,
            stateAmountsOk_iff]
          refine ⟨⟨add_nonneg h1 hra, ?_⟩, le_add_of_nonneg_right hra⟩
          intro r2 hr2
          rcases List.mem_or_eq_of_mem_set hr2 with hr2 | hr2
          · exact h2 r2 hr2
          · subst hr2
            exact hra
        · simp only [refundStep, hg, PaymentService.handle_refund_callback, hsucc, reduceIte,
            stateAmountsOk_iff]
          refine ⟨⟨h1, ?_⟩, le_refl _⟩
          intro r2 hr2
          rcases List.mem_or_eq_of_mem_set hr2 with hr2 | hr2
          · exact h2 r2 hr2
          · subst hr2
            exact hra

theorem refundRun_mono (s : PayState) (ops : List RefundOp)
    (hs : stateAmountsOk s = true) (hops : ops.all RefundOp.amountOk = true) :
    stateAmountsOk (refundRun s ops) = true ∧
      s.payment.refunded_amount ≤ (refundRun s ops).payment.refunded_amount := by
  induction ops generalizing s with
  | nil => exact ⟨hs, le_refl _⟩
  | cons op ops ih =>
      simp only [List.all_cons, Bool.and_eq_true] at hops
      obtain ⟨hok, hle⟩ := refundStep_mono s op hs hops.1
      obtain ⟨hok2, hle2⟩ := ih (refundStep s op) hok hops.2
      exact ⟨hok2, le_trans hle hle2⟩

theorem refundRun_append (s : PayState) (l1 l2 : List RefundOp) :
    refundRun s (l1 ++ l2) = refundRun (refundRun s l1) l2 := by
  simp [refundRun, List.foldl_append]

/-! ## Claim C1 (corrected) -/

/-- C1, counterexample: the orchestrator refund path validates neither the
requested amount against the remaining refundable amount nor its sign.  A
single refund of 150 granted by the gateway against a payment of amount 100
drives refunded_amount to 150 > amount, refuting the claimed invariant
refunded_amount ≤ amount over all refund-operation sequences. -/
theorem spec_C1_counterexample :
    let p0 : Payment :=
      { amount := 100, refunded_amount := 0, provider_trade_no := some "4200001",
        status := PaymentStatus.success }
    let s := refundRun ⟨p0, [], []⟩
      [RefundOp.gatewayRefund 150 none ⟨"50300", "SUCCESS"⟩]
    s.payment.amount = 100 ∧ s.payment.refunded_amount = 150 ∧
      ¬ s.payment.refunded_amount ≤ s.payment.amount := by
  decide

/-- C1, amended: for every sequence of refund operations whose requested
amounts are all nonnegative, starting from a state with nonnegative refunded
amount and refund-row amounts, 0 ≤ refunded_amount holds at every observed
point and refunded_amount never decreases along the sequence.  The upper bound
refunded_amount ≤ amount is not enforced by the code (see the counterexample). -/
theorem spec_C1_refunded_amount_monotone (s0 : PayState) (pre post : List RefundOp)
    (hs : stateAmountsOk s0 = true)
    (hops : (pre ++ post).all RefundOp.amountOk = true) :
    0 ≤ (refundRun s0 pre).payment.refunded_amount ∧
      (refundRun s0 pre).payment.refunded_amount ≤
        (refundRun s0 (pre ++ post)).payment.refunded_amount := by
  rw [List.all_append, Bool.and_eq_true] at hops
  obtain ⟨hok, _⟩ := refundRun_mono s0 pre hs hops.1
  obtain ⟨_, hle2⟩ := refundRun_mono (refundRun s0 pre) post hok hops.2
  refine ⟨((stateAmountsOk_iff _).mp hok).1, ?_⟩
  rw [refundRun_append]
  exact hle2

/-- C1 witness: the amended invariant at a concrete two-operation run, a
refund of 40 granted immediately and a later successful refund callback. -/
theorem spec_C1_refunded_amount_monotone_witness :
    let s0 : PayState :=
      ⟨{ amount := 100, refunded_amount := 0, provider_trade_no := some "4200001",
         status := PaymentStatus.success }, [], []⟩
    let pre := [RefundOp.gatewayRefund 40 none ⟨"50300", "SUCCESS"⟩]
    let post := [RefundOp.gatewayCallback 0 "SUCCESS"]
    stateAmountsOk s0 = true ∧ (pre ++ post).all RefundOp.amountOk = true ∧
      (0 ≤ (refundRun s0 pre).payment.refunded_amount ∧
        (refundRun s0 pre).payment.refunded_amount ≤
          (refundRun s0 (pre ++ post)).payment.refunded_amount) := by
  exact ⟨by decide, by decide,
    spec_C1_refunded_amount_monotone _ _ _ (by decide) (by decide)⟩

/-! ## Claim C2 (confirmed) -/

/-- C2: the orchestrator refund call classifies the immediate gateway status
string as Success exactly when it equals "SUCCESS" and Pending otherwise; on
Success the payment refunded_amount is incremented by the requested amount and
the refund row is marked Success in the same returned state, otherwise the
refund row is left Pending and the payment row unchanged; and exactly one
PaymentRefund event is appended either way. -/
theorem spec_C2_refund_effects (p : Payment) (amount : Int) (reason : Option String)
    (res : RefundResponse) (tn : String) (out : Payment × Refund × List PaymentEventKind)
    (htn : p.provider_trade_no = some tn)
    (hout : PaymentService.refund p amount reason res = some out) :
    (out.2.1.status = RefundStatus.success ↔ res.status = "SUCCESS") ∧
    out.1.refunded_amount =
      (if res.status = "SUCCESS" then p.refunded_amount + amount else p.refunded_amount) ∧
    (res.status ≠ "SUCCESS" → out.2.1.status = RefundStatus.pending ∧ out.1 = p) ∧
    out.2.2 = [PaymentEventKind.paymentRefund] := by
  unfold PaymentService.refund at hout
  rw [htn] at hout
  by_cases hsucc : res.status = "SUCCESS" <;>
    simp only [hsucc, reduceIte, Option.some_inj] at hout <;>
      subst hout <;> simp [hsucc]

/-- C2 witness: a concrete refund of 40 answered "SUCCESS" by the gateway. -/
theorem spec_C2_refund_effects_witness :
    let p : Payment :=
      { amount := 100, refunded_amount := 0, provider_trade_no := some "4200001",
        status := PaymentStatus.success }
    let res : RefundResponse := ⟨"50300", "SUCCESS"⟩
    let out :=
      ({ p with refunded_amount := 40 },
        ({ amount := 40, reason := none, status := RefundStatus.success,
           provider_refund_no := some "50300" } : Refund),
        [PaymentEventKind.paymentRefund])
    PaymentService.refund p 40 none res = some out ∧
      ((out.2.1.status = RefundStatus.success ↔ res.status = "SUCCESS") ∧
        out.1.refunded_amount =
          (if res.status = "SUCCESS" then p.refunded_amount + 40 else p.refunded_amount) ∧
        (res.status ≠ "SUCCESS" → out.2.1.status = RefundStatus.pending ∧ out.1 = p) ∧
        out.2.2 = [PaymentEventKind.paymentRefund]) := by
  exact ⟨by decide, spec_C2_refund_effects _ 40 none _ "4200001" _ (by decide) (by decide)⟩

/-! ## Claim C3 (confirmed) -/

/-- C3: the adapter maps the gateway refund status "SUCCESS" to Success and
"CLOSED" or "ABNORMAL" to Failed; handle_refund_callback increments the owning
payment refunded_amount by the refund row amount exactly when the resulting
status is Success and leaves it unchanged otherwise (in particular for a
"CLOSED" callback), and appends one RefundCallback event. -/
theorem spec_C3_refund_callback_effects :
    refundCallbackStatus "SUCCESS" = RefundStatus.success ∧
    refundCallbackStatus "CLOSED" = RefundStatus.failed ∧
    refundCallbackStatus "ABNORMAL" = RefundStatus.failed ∧
    ∀ (p : Payment) (r : Refund) (st : RefundStatus),
      (PaymentService.handle_refund_callback p r st).1.refunded_amount =
        (if st = RefundStatus.success then p.refunded_amount + r.amount
          else p.refunded_amount) ∧
      (PaymentService.handle_refund_callback p r st).2.1.status = st ∧
      (PaymentService.handle_refund_callback p r st).2.2 =
        [PaymentEventKind.refundCallback] ∧
      (PaymentService.handle_refund_callback p r
          (refundCallbackStatus "CLOSED")).1.refunded_amount = p.refunded_amount := by
  refine ⟨by decide, by decide, by decide, ?_⟩
  intro p r st
  have hclosed : refundCallbackStatus "CLOSED" = RefundStatus.failed := by decide
  refine ⟨?_, by simp [PaymentService.handle_refund_callback],
    by simp [PaymentService.handle_refund_callback], ?_⟩
  · by_cases h : st = RefundStatus.success <;>
      simp [PaymentService.handle_refund_callback, h]
  · rw [hclosed]
    simp [PaymentService.handle_refund_callback]

/-! ## Claim C9 (code bug) -/

/-- C9, failing input: the authorization header produced by the source ends in
two double quotes after the serial number, serial_no="s"" instead of
serial_no="s" — the raw string in utils.rs carries one quote too many.  All
other fields match the claimed format: scheme identifier, then mchid,
nonce_str, signature, timestamp, serial_no in order, comma separated, each
value in quotes. -/
theorem spec_C9_header_extra_quote :
    get_body_auth_header "m" ⟨187, 7, 23⟩ "s" "POST" "/u" "b" "n" 1 =
      "WECHATPAY2-SHA256-RSA2048 mchid=\"m\",nonce_str=\"n\",signature=\"Vw==\",timestamp=\"1\",serial_no=\"s\"\"" := by
  decide

/-! ## Claim C10 (confirmed) -/

/-- C10: EncryptedResource::decrypt is total only on 32-byte keys and 12-byte
nonces: a key of any other byte length, or a nonce field of any other UTF-8
byte length, makes the call panic (Key::from_slice, Nonce::from_slice) rather
than return the Err of its Result signature. -/
theorem spec_C10_decrypt_panics_on_bad_lengths (res : EncryptedResource) (key : List Nat)
    (h : key.length ≠ 32 ∨ (utf8 res.nonce).length ≠ 12) :
    res.decrypt key = DecryptOutcome.panic ∧ res.decrypt key ≠ DecryptOutcome.err := by
  have hp : res.decrypt key = DecryptOutcome.panic := by
    unfold EncryptedResource.decrypt
    rcases h with h | h
    · rw [if_pos h]
    · by_cases hk : key.length ≠ 32
      · rw [if_pos hk]
      · rw [if_neg hk, if_pos h]
  exact ⟨hp, by rw [hp]; intro hx; cases hx⟩

/-- C10 witness: the empty key and a three-byte nonce. -/
theorem spec_C10_decrypt_panics_witness :
    (([] : List Nat).length ≠ 32 ∨
        (utf8 (EncryptedResource.mk "" "abc" "").nonce).length ≠ 12) ∧
      (EncryptedResource.mk "" "abc" "").decrypt [] = DecryptOutcome.panic := by
  refine ⟨by decide, ?_⟩
  exact (spec_C10_decrypt_panics_on_bad_lengths _ _ (by decide)).1

/-! ## Claim C7 (confirmed) -/

/-- C7: in both webhook handlers, a header serial different from the configured
public key id makes the handler panic for every signature value, so the
rejection happens before signature verification can matter; and whenever
signature verification fails the handler panics for every parsed body, every
plaintext parser and every api key, so no acknowledgement is produced and
decryption is never consulted. -/
theorem spec_C7_callback_guards (cfg : WxPayJsapiCfg) (ts nonce serial sign body : String)
    (parsed : Option WebhookBody) (parsePay : String → Option PlainResource)
    (parseRefund : String → Option PlainRefundResource) :
    (serial ≠ cfg.wxpay_public_key_id →
      WxPayJsapi.pay_callback cfg ⟨some ts, some nonce, some serial, some sign, body, parsed⟩
          parsePay = CallbackResult.panic ∧
      WxPayJsapi.refund_callback cfg ⟨some ts, some nonce, some serial, some sign, body, parsed⟩
          parseRefund = CallbackResult.panic) ∧
    (verify_response cfg.wxpay_public_key sign ts nonce body = RustResult.err () →
      WxPayJsapi.pay_callback cfg ⟨some ts, some nonce, some serial, some sign, body, parsed⟩
          parsePay = CallbackResult.panic ∧
      WxPayJsapi.refund_callback cfg ⟨some ts, some nonce, some serial, some sign, body, parsed⟩
          parseRefund = CallbackResult.panic) := by
  constructor
  · intro hser
    unfold WxPayJsapi.pay_callback WxPayJsapi.refund_callback
    simp [hser]
  · intro hver
    by_cases hser : serial ≠ cfg.wxpay_public_key_id
    · unfold WxPayJsapi.pay_callback WxPayJsapi.refund_callback
      simp [hser]
    · unfold WxPayJsapi.pay_callback WxPayJsapi.refund_callback
      simp [hser, hver]

/-- C7 witness: a mismatched serial against one configuration, and a failing
verification (empty signature against the zero key) against another. -/
theorem spec_C7_callback_guards_witness :
    let cfg : WxPayJsapiCfg := ⟨"a", "m", "KEYID", ⟨0, 0⟩, "k"⟩
    ("OTHER" ≠ cfg.wxpay_public_key_id ∧
      WxPayJsapi.pay_callback cfg ⟨some "1", some "n", some "OTHER", some "", "b", none⟩
          (fun _ => none) = CallbackResult.panic) ∧
    (verify_response cfg.wxpay_public_key "" "1" "n" "b" = RustResult.err () ∧
      WxPayJsapi.refund_callback cfg ⟨some "1", some "n", some "KEYID", some "", "b", none⟩
          (fun _ => none) = CallbackResult.panic) := by
  refine ⟨⟨by decide, ?_⟩, ⟨by decide, ?_⟩⟩
  · exact ((spec_C7_callback_guards _ "1" "n" "OTHER" "" "b" none (fun _ => none)
      (fun _ => none)).1 (by decide)).1
  · exact ((spec_C7_callback_guards _ "1" "n" "KEYID" "" "b" none (fun _ => none)
      (fun _ => none)).2 (by decide)).2

/-! ## Claim C4 (confirmed) -/

/-- C4: for every method, uri path, body, nonce, timestamp and private key,
get_sign signs exactly the canonical five-field newline-terminated string of
the spec with RSASSA-PKCS#1 v1.5 over SHA-256 and base64-encodes the signature
bytes; and on the request vector pinned by the test_body_sign test it
reproduces the pinned signature. -/
theorem spec_C4_request_signing :
    (∀ (key : RsaPriv) (method uri body nonce : String) (timestamp : Int),
      get_sign key method uri body nonce timestamp =
        b64encode (sign_sha256_rsa key
          (utf8 (specCanonicalRequest method uri (toString timestamp) nonce body)))) ∧
    get_sign testPrivKey "POST" "/v3/pay/transactions/jsapi" wxTestBody
        "593BEC0C930BF1AFEB40B4A08C8FB242" 1554208460 = wxTestBodySig := by
  exact ⟨fun key method uri body nonce ts => rfl, by decide⟩

/-! ## Claim C5 (confirmed) -/

/-- C5: pay_sign_inner signs exactly the canonical client-invocation string of
the spec with the same RSA-SHA256 scheme, and on the documented test vector
(app id, timestamp 1554208460, nonce, prepay id, merchant test key) it
reproduces the pinned published signature. -/
theorem spec_C5_client_invocation_signing :
    (∀ (key : RsaPriv) (app_id nonce : String) (timestamp : Int) (prepay_id : String),
      pay_sign_inner key app_id nonce timestamp prepay_id =
        b64encode (sign_sha256_rsa key
          (utf8 (specCanonicalClientInvocation app_id (toString timestamp) nonce prepay_id)))) ∧
    pay_sign_inner testPrivKey "wx2421b1c4370ec43b" "593BEC0C930BF1AFEB40B4A08C8FB242"
        1554208460 "wx201410272009395522657a690389285100" = wxPaySignResult := by
  constructor
  · intro key app_id nonce ts prepay_id
    have hlit : ("\nprepay_id=" : String) = "\n" ++ "prepay_id=" := rfl
    simp only [pay_sign_inner, specCanonicalClientInvocation, hlit, String.append_assoc]
  · decide

/-! ## Byte-sequence and base64 lemmas -/

theorem i2osp_length (k m : Nat) : (i2osp k m).length = k := by
  induction k generalizing m with
  | zero => rfl
  | succ k ih => simp [i2osp, ih]

theorem i2osp_lt (k m : Nat) : ∀ b ∈ i2osp k m, b < 256 := by
  induction k generalizing m with
  | zero => intro b hb; simp [i2osp] at hb
  | succ k ih =>
      intro b hb
      simp only [i2osp, List.mem_append, List.mem_singleton] at hb
      rcases hb with hb | hb
      · exact ih _ b hb
      · subst hb; exact Nat.mod_lt _ (by norm_num)

theorem os2ip_append (xs : List Nat) (b : Nat) : os2ip (xs ++ [b]) = os2ip xs * 256 + b := by
  simp [os2ip, List.foldl_append]

theorem os2ip_i2osp (k m : Nat) : os2ip (i2osp k m) = m % 256 ^ k := by
  induction k generalizing m with
  | zero => simp [i2osp, os2ip, Nat.mod_one]
  | succ k ih =>
      rw [i2osp, os2ip_append, ih]
      calc m / 256 % 256 ^ k * 256 + m % 256
          = m % 256 + 256 * (m / 256 % 256 ^ k) := by ring
        _ = m % (256 * 256 ^ k) := (Nat.mod_mul).symm
        _ = m % 256 ^ (k + 1) := by rw [pow_succ, mul_comm]

theorem i2osp_os2ip (bs : List Nat) (h : ∀ b ∈ bs, b < 256) :
    i2osp bs.length (os2ip bs) = bs := by
  induction bs using List.reverseRecOn with
  | nil => rfl
  | append_singleton xs b ih =>
      have hb : b < 256 := h b (by simp)
      have hlen : (xs ++ [b]).length = xs.length + 1 := by simp
      rw [os2ip_append, hlen, i2osp]
      have h1 : (os2ip xs * 256 + b) / 256 = os2ip xs := by omega
      have h2 : (os2ip xs * 256 + b) % 256 = b := by omega
      rw [h1, h2, ih fun x hx => h x (by simp [hx])]

theorem b64val_b64chr : ∀ v, v < 64 → b64val (b64chr v) = some v := by decide

theorem b64chr_ne_pad : ∀ v, v < 64 → b64chr v ≠ '=' := by decide

theorem b64decodeGroups_encodeGroups (bs : List Nat) (acc : List Nat)
    (h : ∀ b ∈ bs, b < 256) :
    b64decodeGroups (b64encodeGroups bs) acc = some (acc.reverse ++ bs) := by
  induction bs using b64encodeGroups.induct generalizing acc with
  | case1 => simp [b64encodeGroups, b64decodeGroups]
  | case2 a =>
      have ha : a < 256 := h a (by simp)
      simp only [b64encodeGroups, b64decodeGroups]
      rw [if_pos (by simp), b64val_b64chr (a / 4) (by omega),
        b64val_b64chr (a % 4 * 16) (by omega)]
      simp only []
      rw [if_pos (by omega)]
      simp only [List.reverse_cons, Option.some_inj]
      have hx : a / 4 * 4 + a % 4 * 16 / 16 = a := by omega
      rw [hx]
  | case3 a b =>
      have ha : a < 256 := h a (by simp)
      have hb : b < 256 := h b (by simp)
      simp only [b64encodeGroups, b64decodeGroups]
      rw [if_neg (by rintro ⟨h3, -, -⟩; exact b64chr_ne_pad (b % 16 * 4) (by omega) h3),
        if_pos (by simp), b64val_b64chr (a / 4) (by omega),
        b64val_b64chr (a % 4 * 16 + b / 16) (by omega),
        b64val_b64chr (b % 16 * 4) (by omega)]
      simp only []
      rw [if_pos (by omega)]
      simp only [List.reverse_cons, List.append_assoc, List.singleton_append,
        Option.some_inj]
      have h1 : a / 4 * 4 + (a % 4 * 16 + b / 16) / 16 = a := by omega
      have h2 : (a % 4 * 16 + b / 16) % 16 * 16 + b % 16 * 4 / 4 = b := by omega
      rw [h1, h2]
  | case4 a b c rest ih =>
      have ha : a < 256 := h a (by simp)
      have hb : b < 256 := h b (by simp)
      have hc : c < 256 := h c (by simp)
      simp only [b64encodeGroups, b64decodeGroups]
      rw [if_neg (by rintro ⟨h3, -, -⟩; exact b64chr_ne_pad (b % 16 * 4 + c / 64) (by omega) h3),
        if_neg (by rintro ⟨h4, -⟩; exact b64chr_ne_pad (c % 64) (by omega) h4),
        b64val_b64chr (a / 4) (by omega), b64val_b64chr (a % 4 * 16 + b / 16) (by omega),
        b64val_b64chr (b % 16 * 4 + c / 64) (by omega), b64val_b64chr (c % 64) (by omega)]
      simp only []
      rw [ih _ fun x hx => h x (by simp [hx])]
      simp only [List.reverse_cons, List.append_assoc, List.singleton_append,
        Option.some_inj]
      have h1 : a / 4 * 4 + (a % 4 * 16 + b / 16) / 16 = a := by omega
      have h2 : (a % 4 * 16 + b / 16) % 16 * 16 + (b % 16 * 4 + c / 64) / 4 = b := by omega
      have h3 : (b % 16 * 4 + c / 64) % 4 * 64 + c % 64 = c := by omega
      rw [h1, h2, h3]
      simp

theorem b64decode_b64encode (bs : List Nat) (h : ∀ b ∈ bs, b < 256) :
    b64decode (b64encode bs) = some bs := by
  have := b64decodeGroups_encodeGroups bs [] h
  simpa [b64decode, b64encode] using this

/-! ## SHA-256 and EMSA shape lemmas -/

theorem shaRound_length (st : List Nat) (kw : Nat × Nat) :
    (shaRound st kw).length = st.length := by
  unfold shaRound
  split
  · simp
  · rfl

theorem foldl_shaRound_length (l : List (Nat × Nat)) (st : List Nat) :
    (List.foldl shaRound st l).length = st.length := by
  induction l generalizing st with
  | nil => rfl
  | cons kw l ih => rw [List.foldl_cons, ih, shaRound_length]

theorem shaCompress_length (h block : List Nat) :
    (shaCompress h block).length = h.length := by
  unfold shaCompress
  simp [foldl_shaRound_length]

theorem shaBlocksGo_length (f : Nat) (h msg : List Nat) :
    (shaBlocksGo f h msg).length = h.length := by
  induction f generalizing h msg with
  | zero => simp [shaBlocksGo]
  | succ f ih =>
      cases msg with
      | nil => simp [shaBlocksGo]
      | cons b msg =>
          rw [show shaBlocksGo (f + 1) h (b :: msg) =
            shaBlocksGo f (shaCompress h ((b :: msg).take 64)) ((b :: msg).drop 64) from rfl,
            ih, shaCompress_length]

theorem foldr_i2osp_length (l : List Nat) :
    (l.foldr (fun w acc => i2osp 4 w ++ acc) []).length = 4 * l.length := by
  induction l with
  | nil => rfl
  | cons w l ih => simp [List.foldr_cons, ih, i2osp_length]; ring

theorem foldr_i2osp_lt (l : List Nat) :
    ∀ b ∈ l.foldr (fun w acc => i2osp 4 w ++ acc) [], b < 256 := by
  induction l with
  | nil => intro b hb; simp at hb
  | cons w l ih =>
      intro b hb
      simp only [List.foldr_cons, List.mem_append] at hb
      rcases hb with hb | hb
      · exact i2osp_lt 4 w b hb
      · exact ih b hb

theorem sha256_length (msg : List Nat) : (sha256 msg).length = 32 := by
  unfold sha256
  rw [foldr_i2osp_length, shaBlocksGo_length]
  rfl

theorem sha256_lt (msg : List Nat) : ∀ b ∈ sha256 msg, b < 256 := by
  intro b hb
  exact foldr_i2osp_lt _ b hb

theorem emsaPkcs1v15_length (k : Nat) (msg : List Nat) (hk : 54 ≤ k) :
    (emsaPkcs1v15 k msg).length = k := by
  unfold emsaPkcs1v15
  have h19 : sha256DigestInfoHeader.length = 19 := rfl
  simp [sha256_length, h19]
  omega

theorem emsaPkcs1v15_lt (k : Nat) (msg : List Nat) :
    ∀ b ∈ emsaPkcs1v15 k msg, b < 256 := by
  intro b hb
  have hhdr : ∀ x ∈ sha256DigestInfoHeader, x < 256 := by decide
  simp only [emsaPkcs1v15, List.mem_append, List.mem_cons, List.mem_singleton,
    List.mem_replicate, List.not_mem_nil, or_false] at hb
  rcases hb with (((hb | hb) | ⟨-, hb⟩) | hb) | hb | hb
  · omega
  · omega
  · omega
  · omega
  · exact hhdr b hb
  · exact sha256_lt msg b hb
theorem verify_sha256_rsa_ok (key : RsaPub) (data sig : List Nat)
    (h1 : sig.length = natByteLen key.n)
    (h2 : os2ip sig < key.n)
    (h3 : i2osp (natByteLen key.n) (powMod (os2ip sig) key.e key.n) =
      emsaPkcs1v15 (natByteLen key.n) data) :
    verify_sha256_rsa key data sig = RustResult.ok () := by
  simp only [verify_sha256_rsa]
  rw [if_neg (by simp [h1]), if_neg (not_le.mpr h2), if_pos h3]

theorem rsa_verify_roundtrip (priv : RsaPriv) (ts nonce body : String)
    (h54 : 54 ≤ natByteLen priv.n)
    (hnk : priv.n ≤ 256 ^ natByteLen priv.n)
    (hS : powMod (os2ip (emsaPkcs1v15 (natByteLen priv.n)
        (utf8 (specCanonicalWebhook ts nonce body)))) priv.d priv.n < priv.n)
    (hround : powMod (powMod (os2ip (emsaPkcs1v15 (natByteLen priv.n)
          (utf8 (specCanonicalWebhook ts nonce body)))) priv.d priv.n) priv.e priv.n =
        os2ip (emsaPkcs1v15 (natByteLen priv.n) (utf8 (specCanonicalWebhook ts nonce body)))) :
    verify_response ⟨priv.n, priv.e⟩
      (b64encode (sign_sha256_rsa priv (utf8 (specCanonicalWebhook ts nonce body))))
      ts nonce body = RustResult.ok () := by
  have hsig : sign_sha256_rsa priv (utf8 (specCanonicalWebhook ts nonce body)) =
      i2osp (natByteLen priv.n)
        (powMod (os2ip (emsaPkcs1v15 (natByteLen priv.n)
          (utf8 (specCanonicalWebhook ts nonce body)))) priv.d priv.n) := rfl
  have hos : os2ip (i2osp (natByteLen priv.n)
      (powMod (os2ip (emsaPkcs1v15 (natByteLen priv.n)
        (utf8 (specCanonicalWebhook ts nonce body)))) priv.d priv.n)) =
      powMod (os2ip (emsaPkcs1v15 (natByteLen priv.n)
        (utf8 (specCanonicalWebhook ts nonce body)))) priv.d priv.n := by
    rw [os2ip_i2osp]
    exact Nat.mod_eq_of_lt (lt_of_lt_of_le hS hnk)
  have hem : i2osp (natByteLen priv.n)
      (os2ip (emsaPkcs1v15 (natByteLen priv.n)
        (utf8 (specCanonicalWebhook ts nonce body)))) =
      emsaPkcs1v15 (natByteLen priv.n) (utf8 (specCanonicalWebhook ts nonce body)) := by
    have hlen := emsaPkcs1v15_length (natByteLen priv.n)
      (utf8 (specCanonicalWebhook ts nonce body)) h54
    have hrt := i2osp_os2ip
      (emsaPkcs1v15 (natByteLen priv.n) (utf8 (specCanonicalWebhook ts nonce body)))
      (emsaPkcs1v15_lt _ _)
    rw [hlen] at hrt
    exact hrt
  have hok := verify_sha256_rsa_ok ⟨priv.n, priv.e⟩
    (utf8 (specCanonicalWebhook ts nonce body))
    (i2osp (natByteLen priv.n)
      (powMod (os2ip (emsaPkcs1v15 (natByteLen priv.n)
        (utf8 (specCanonicalWebhook ts nonce body)))) priv.d priv.n))
    (i2osp_length _ _) (by rw [hos]; exact hS) (by rw [hos, hround]; exact hem)
  simp only [verify_response]
  rw [show (ts ++ "\n" ++ nonce ++ "\n" ++ body ++ "\n") = specCanonicalWebhook ts nonce body
    from rfl, hsig, b64decode_b64encode _ (i2osp_lt _ _)]
  exact hok

/-! ## Claim C6 (confirmed) -/

/-- C6: verify_response checks exactly the canonical webhook string
"timestamp\nnonce\nbody\n" of the spec with RSASSA-PKCS#1 v1.5 over SHA-256
against the platform public key; the tuple pinned by the verify_response test
verifies against the platform key; flipping one byte of that signature or one
byte of the body makes verification fail; and every signature produced over
the canonical string by the matching private key verifies, given the RSA
inversion facts of that key on that message (discharged concretely in the
witness). -/
theorem spec_C6_webhook_verification :
    (∀ (key : RsaPub) (sig ts nonce body : String),
      verify_response key sig ts nonce body =
        match b64decode sig with
        | none => RustResult.err ()
        | some s => verify_sha256_rsa key (utf8 (specCanonicalWebhook ts nonce body)) s) ∧
    verify_response wxPubKey wxVerifySig "1722850421" "d824f2e086d3c1df967785d13fcd22ef"
      wxVerifyBody = RustResult.ok () ∧
    verify_response wxPubKey wxVerifySigFlipped "1722850421"
      "d824f2e086d3c1df967785d13fcd22ef" wxVerifyBody = RustResult.err () ∧
    verify_response wxPubKey wxVerifySig "1722850421" "d824f2e086d3c1df967785d13fcd22ef"
      wxVerifyBodyFlipped = RustResult.err () ∧
    ∀ (priv : RsaPriv) (ts nonce body : String),
      54 ≤ natByteLen priv.n →
      priv.n ≤ 256 ^ natByteLen priv.n →
      powMod (os2ip (emsaPkcs1v15 (natByteLen priv.n)
          (utf8 (specCanonicalWebhook ts nonce body)))) priv.d priv.n < priv.n →
      powMod (powMod (os2ip (emsaPkcs1v15 (natByteLen priv.n)
            (utf8 (specCanonicalWebhook ts nonce body)))) priv.d priv.n) priv.e priv.n =
        os2ip (emsaPkcs1v15 (natByteLen priv.n)
          (utf8 (specCanonicalWebhook ts nonce body))) →
      verify_response ⟨priv.n, priv.e⟩
        (b64encode (sign_sha256_rsa priv (utf8 (specCanonicalWebhook ts nonce body))))
        ts nonce body = RustResult.ok () := by
  refine ⟨fun key sig ts nonce body => rfl, by decide, by decide, by decide, ?_⟩
  intro priv ts nonce body h54 hnk hS hround
  exact rsa_verify_roundtrip priv ts nonce body h54 hnk hS hround

/-- C6 witness: signing the pinned webhook tuple with the merchant test key and
verifying with its public half succeeds; the RSA inversion hypotheses are
discharged by computation on that key and message. -/
theorem spec_C6_webhook_verification_witness :
    (54 ≤ natByteLen testPrivKey.n ∧
      testPrivKey.n ≤ 256 ^ natByteLen testPrivKey.n ∧
      powMod (os2ip (emsaPkcs1v15 (natByteLen testPrivKey.n)
          (utf8 (specCanonicalWebhook "1722850421" "d824f2e086d3c1df967785d13fcd22ef"
            wxVerifyBody)))) testPrivKey.d testPrivKey.n < testPrivKey.n ∧
      powMod (powMod (os2ip (emsaPkcs1v15 (natByteLen testPrivKey.n)
            (utf8 (specCanonicalWebhook "1722850421" "d824f2e086d3c1df967785d13fcd22ef"
              wxVerifyBody)))) testPrivKey.d testPrivKey.n) testPrivKey.e testPrivKey.n =
        os2ip (emsaPkcs1v15 (natByteLen testPrivKey.n)
          (utf8 (specCanonicalWebhook "1722850421" "d824f2e086d3c1df967785d13fcd22ef"
            wxVerifyBody)))) ∧
    verify_response ⟨testPrivKey.n, testPrivKey.e⟩
      (b64encode (sign_sha256_rsa testPrivKey
        (utf8 (specCanonicalWebhook "1722850421" "d824f2e086d3c1df967785d13fcd22ef"
          wxVerifyBody))))
      "1722850421" "d824f2e086d3c1df967785d13fcd22ef" wxVerifyBody = RustResult.ok () := by
  have h54 : 54 ≤ natByteLen testPrivKey.n := by decide
  have hnk : testPrivKey.n ≤ 256 ^ natByteLen testPrivKey.n := by decide
  have hS : powMod (os2ip (emsaPkcs1v15 (natByteLen testPrivKey.n)
      (utf8 (specCanonicalWebhook "1722850421" "d824f2e086d3c1df967785d13fcd22ef"
        wxVerifyBody)))) testPrivKey.d testPrivKey.n < testPrivKey.n := by decide
  have hround : powMod (powMod (os2ip (emsaPkcs1v15 (natByteLen testPrivKey.n)
        (utf8 (specCanonicalWebhook "1722850421" "d824f2e086d3c1df967785d13fcd22ef"
          wxVerifyBody)))) testPrivKey.d testPrivKey.n) testPrivKey.e testPrivKey.n =
      os2ip (emsaPkcs1v15 (natByteLen testPrivKey.n)
        (utf8 (specCanonicalWebhook "1722850421" "d824f2e086d3c1df967785d13fcd22ef"
          wxVerifyBody))) := by decide
  exact ⟨⟨h54, hnk, hS, hround⟩,
    spec_C6_webhook_verification.2.2.2.2 testPrivKey "1722850421"
      "d824f2e086d3c1df967785d13fcd22ef" wxVerifyBody h54 hnk hS hround⟩

/-! ## AES-GCM shape and roundtrip lemmas -/

theorem zipXor_length (a b : List Nat) : (zipXor a b).length = min a.length b.length := by
  simp [zipXor]

theorem zipXor_zipXor (a b : List Nat) (h : a.length ≤ b.length) :
    zipXor (zipXor a b) b = a := by
  induction a generalizing b with
  | nil => simp [zipXor]
  | cons x a ih =>
      cases b with
      | nil => simp at h
      | cons y b =>
          have h2 : a.length ≤ b.length := by simpa using h
          show ((x ^^^ y) ^^^ y) :: zipXor (zipXor a b) b = x :: a
          rw [Nat.xor_cancel_right, ih b h2]

theorem shiftRows_length (st : List Nat) : (shiftRows st).length = 16 := by
  simp [shiftRows, shiftRowsIdx]

theorem roundKeyBytes_length (ws : List Nat) (r : Nat) :
    (roundKeyBytes ws r).length = 16 := by
  simp [roundKeyBytes, wordBytes]

theorem aesEncBlock_length (key block : List Nat) : (aesEncBlock key block).length = 16 := by
  unfold aesEncBlock
  rw [zipXor_length, shiftRows_length, roundKeyBytes_length]
  omega

theorem gcmCtrAux_nil (f : Nat) (key iv : List Nat) (c : Nat) :
    gcmCtrAux f key iv c [] = [] := by
  cases f <;> rfl

theorem gcmCtrAux_cons (f : Nat) (key iv : List Nat) (c : Nat) (d : List Nat) (hd : d ≠ []) :
    gcmCtrAux (f + 1) key iv c d =
      zipXor (d.take 16) (aesEncBlock key (iv ++ i2osp 4 c)) ++
        gcmCtrAux f key iv (c + 1) (d.drop 16) := by
  cases d with
  | nil => exact absurd rfl hd
  | cons b d => rfl

theorem gcmCtrAux_length (f : Nat) (key iv : List Nat) (c : Nat) (d : List Nat)
    (h : d.length ≤ f) : (gcmCtrAux f key iv c d).length = d.length := by
  induction f generalizing c d with
  | zero =>
      rw [List.eq_nil_of_length_eq_zero (Nat.le_zero.mp h)]
      rfl
  | succ f ih =>
      cases d with
      | nil => rfl
      | cons b d =>
          have h1 : (b :: d).length = d.length + 1 := rfl
          rw [gcmCtrAux_cons f key iv c (b :: d) (by simp)]
          rw [List.length_append, zipXor_length, aesEncBlock_length,
            ih (c + 1) _ (by simp only [List.length_drop]; omega)]
          simp only [List.length_take, List.length_drop]
          omega

theorem gcmCtrAux_involution (f : Nat) (key iv : List Nat) (c : Nat) (d : List Nat)
    (h : d.length ≤ f) :
    gcmCtrAux f key iv c (gcmCtrAux f key iv c d) = d := by
  induction f generalizing c d with
  | zero =>
      rw [List.eq_nil_of_length_eq_zero (Nat.le_zero.mp h), gcmCtrAux_nil, gcmCtrAux_nil]
  | succ f ih =>
      by_cases hdnil : d = []
      · rw [hdnil, gcmCtrAux_nil, gcmCtrAux_nil]
      · have hdl : 0 < d.length := List.length_pos.mpr hdnil
        rw [gcmCtrAux_cons f key iv c d hdnil]
        generalize hks : aesEncBlock key (iv ++ i2osp 4 c) = ks
        have hksl : ks.length = 16 := by rw [← hks]; exact aesEncBlock_length _ _
        by_cases h16 : 16 ≤ d.length
        · have hAl16 : (zipXor (d.take 16) ks).length = 16 := by
            rw [zipXor_length, List.length_take, hksl]
            omega
          have hABnil : zipXor (d.take 16) ks ++ gcmCtrAux f key iv (c + 1) (d.drop 16) ≠ [] := by
            intro hx
            have hlx := congrArg List.length hx
            rw [List.length_append, hAl16] at hlx
            simp at hlx
          rw [gcmCtrAux_cons f key iv c _ hABnil, hks]
          have htake : (zipXor (d.take 16) ks ++ gcmCtrAux f key iv (c + 1) (d.drop 16)).take 16 =
              zipXor (d.take 16) ks := by
            rw [List.take_append_eq_append_take, List.take_of_length_le (le_of_eq hAl16), hAl16]
            simp
          have hdrop : (zipXor (d.take 16) ks ++ gcmCtrAux f key iv (c + 1) (d.drop 16)).drop 16 =
              gcmCtrAux f key iv (c + 1) (d.drop 16) := by
            rw [List.drop_append_eq_append_drop, List.drop_eq_nil_of_le (le_of_eq hAl16), hAl16]
            simp
          rw [htake, hdrop]
          rw [zipXor_zipXor _ _ (by rw [hksl, List.length_take]; omega)]
          rw [ih (c + 1) (d.drop 16) (by rw [List.length_drop]; omega)]
          exact List.take_append_drop 16 d
        · have htd : d.take 16 = d := List.take_of_length_le (by omega)
          have hdd : d.drop 16 = [] := List.drop_eq_nil_of_le (by omega)
          rw [htd, hdd, gcmCtrAux_nil, List.append_nil]
          have hAl2 : (zipXor d ks).length = d.length := by
            rw [zipXor_length, hksl]
            omega
          have hAnil : zipXor d ks ≠ [] := by
            intro hx
            rw [hx] at hAl2
            simp only [List.length_nil] at hAl2
            omega
          rw [gcmCtrAux_cons f key iv c _ hAnil, hks]
          rw [List.take_of_length_le (by omega : (zipXor d ks).length ≤ 16),
            List.drop_eq_nil_of_le (by omega : (zipXor d ks).length ≤ 16),
            gcmCtrAux_nil, List.append_nil]
          exact zipXor_zipXor d ks (by omega)

theorem gcmTag_length (key iv aad ct : List Nat) : (gcmTag key iv aad ct).length = 16 := by
  unfold gcmTag
  rw [zipXor_length, i2osp_length, aesEncBlock_length]
  omega

theorem gcmOpen_gcmSeal (key iv aad pt : List Nat) :
    gcmOpen key iv aad (gcmSeal key iv aad pt) = some pt := by
  simp only [gcmSeal, gcmOpen]
  have hctl : (gcmCtrAux (pt.length + 16) key iv 2 pt).length = pt.length :=
    gcmCtrAux_length _ _ _ _ _ (by omega)
  have htagl :
      (gcmTag key iv aad (gcmCtrAux (pt.length + 16) key iv 2 pt)).length = 16 :=
    gcmTag_length _ _ _ _
  rw [if_neg (by rw [List.length_append, hctl, htagl]; omega)]
  have hsub : (gcmCtrAux (pt.length + 16) key iv 2 pt ++
        gcmTag key iv aad (gcmCtrAux (pt.length + 16) key iv 2 pt)).length - 16 =
      (gcmCtrAux (pt.length + 16) key iv 2 pt).length := by
    rw [List.length_append, htagl]
    omega
  rw [hsub, List.take_left, List.drop_left, if_pos rfl, hctl]
  exact congrArg some (gcmCtrAux_involution _ _ _ _ _ (by omega))

/-! ## Claim C8 (confirmed) -/

set_option maxHeartbeats 4000000 in
/-- C8: opening an AES-256-GCM sealing with the same key, nonce and associated
data returns the plaintext for every key, nonce, associated data and
plaintext; end to end, EncryptedResource::decrypt recovers the fixture
plaintext from its sealed base64 ciphertext, while a wrong key, a wrong nonce,
wrong associated data or a single flipped ciphertext byte each make it return
Err, as does ciphertext that is not valid base64; and an absent
associated_data JSON field is read as the empty string. -/
theorem spec_C8_decrypt_roundtrip :
    (∀ (key iv aad pt : List Nat), gcmOpen key iv aad (gcmSeal key iv aad pt) = some pt) ∧
    (∀ (ct nonce : String), EncryptedResource.ofJson ct nonce none = ⟨ct, nonce, ""⟩) ∧
    (EncryptedResource.ofJson gcmTestCiphertext gcmTestNonce
        (some "transaction")).decrypt (utf8 gcmTestKey) = DecryptOutcome.ok gcmTestPlain ∧
    (EncryptedResource.ofJson gcmTestCiphertext gcmTestNonce
        (some "transaction")).decrypt (utf8 "0123456789abcdef0123456789abcdeX") =
      DecryptOutcome.err ∧
    (EncryptedResource.ofJson gcmTestCiphertext "abcdefghijkm"
        (some "transaction")).decrypt (utf8 gcmTestKey) = DecryptOutcome.err ∧
    (EncryptedResource.ofJson gcmTestCiphertext gcmTestNonce
        (some "transactioX")).decrypt (utf8 gcmTestKey) = DecryptOutcome.err ∧
    (EncryptedResource.ofJson gcmTestCiphertextFlipped gcmTestNonce
        (some "transaction")).decrypt (utf8 gcmTestKey) = DecryptOutcome.err ∧
    (EncryptedResource.ofJson "!!!!" gcmTestNonce
        (some "transaction")).decrypt (utf8 gcmTestKey) = DecryptOutcome.err := by
  exact ⟨gcmOpen_gcmSeal, fun ct nonce => rfl, by decide, by decide, by decide, by decide,
    by decide, by decide⟩
